import Mathlib

/-!
Verification of the packet-analyzer measurement pipeline.

Shallow embedding of the C sources:
 * `src/src/logger.c` (metrics part):  metrics state, counters, latency
   histogram, percentile extraction, JSON rate formulas;
 * `src/src/thread_pool.c`:  the worker body;
 * `src/unnamed/part_003` (`packet.c` / `regression.c`):  `packet_create`,
   `packet_parse`, `regression_compare`, baseline mbps recomputation;
 * `src/unnamed/part_002` (metrics-enabled `main`):  per-run regression
   analysis, persistence threshold, run-result storage, outcome and exit code.

C doubles are modelled as `ℚ` (all divergences proved below are orders of
magnitude beyond double rounding error, and the one truncation that matters,
`(uint64_t)(latency_count * 95.0)`, is exact in double for any feasible count).
`uint64_t` counters are modelled as `ℕ`: the program only ever increments them
by small amounts, far from 2^64.
-/

namespace PacketAnalyzer

/-! ## Metrics state (metrics.h `metrics_t`, 32 histogram buckets) -/

/-- Mirror of `metrics_t` in `include/metrics.h`.  The histogram has
`METRICS_HISTOGRAM_BUCKETS = 32` buckets. -/
structure MetricsState where
  pkts_captured : ℕ
  pkts_processed : ℕ
  bytes_captured : ℕ
  bytes_processed : ℕ
  parse_errors : ℕ
  checksum_failures : ℕ
  queue_drops : ℕ
  capture_drops : ℕ
  ether_ipv4 : ℕ
  ether_ipv6 : ℕ
  ether_arp : ℕ
  ether_other : ℕ
  proto_tcp : ℕ
  proto_udp : ℕ
  proto_icmp : ℕ
  proto_other : ℕ
  queue_depth_max : ℕ
  latency_count : ℕ
  latency_sum_ns : ℕ
  latency_max_ns : ℕ
  latency_histogram : Fin 32 → ℕ
  start_time_ns : ℕ
  capture_end_time_ns : ℕ

/-- `metrics_init`: zero every field (logger.c:286-322). -/
def metricsInitState : MetricsState where
  pkts_captured := 0
  pkts_processed := 0
  bytes_captured := 0
  bytes_processed := 0
  parse_errors := 0
  checksum_failures := 0
  queue_drops := 0
  capture_drops := 0
  ether_ipv4 := 0
  ether_ipv6 := 0
  ether_arp := 0
  ether_other := 0
  proto_tcp := 0
  proto_udp := 0
  proto_icmp := 0
  proto_other := 0
  queue_depth_max := 0
  latency_count := 0
  latency_sum_ns := 0
  latency_max_ns := 0
  latency_histogram := fun _ => 0
  start_time_ns := 0
  capture_end_time_ns := 0

/-- `metrics_start`: record the current monotonic time (always positive)
as `start_time_ns` (logger.c:324-326). -/
def metrics_start (now_ns : ℕ) (m : MetricsState) : MetricsState :=
  { m with start_time_ns := now_ns }

/-- `metrics_stop_capture` (logger.c:328-330). -/
def metrics_stop_capture (now_ns : ℕ) (m : MetricsState) : MetricsState :=
  { m with capture_end_time_ns := now_ns }

/-- `metrics_is_active`: `start_time_ns > 0` (logger.c:332-334). -/
def metrics_is_active (m : MetricsState) : Bool :=
  decide (0 < m.start_time_ns)

/-- The `while (val > 1 && bucket < METRICS_HISTOGRAM_BUCKETS - 1)` loop of
`latency_bucket` (logger.c:360-365).  `rem` is the remaining headroom
`31 - bucket`, so `rem = 0` is exactly the loop guard `bucket < 31` failing;
the loop body halves `val` and increments `bucket`. -/
def latencyBucketLoop : ℕ → ℕ → ℕ → ℕ
  | 0, _, bucket => bucket
  | rem + 1, val, bucket =>
      if 1 < val then latencyBucketLoop rem (val / 2) (bucket + 1) else bucket

/-- `latency_bucket` (logger.c:352-368): if the value is below 1 µs the bucket
is 0, otherwise repeatedly halve the microsecond value, counting halvings,
capped at bucket 31.  (This computes `min ⌊log2 µs⌋ 31`.) -/
def latency_bucket (latency_ns : ℕ) : ℕ :=
  if latency_ns = 0 then 0
  else
    let latency_us := latency_ns / 1000
    if latency_us = 0 then 0
    else latencyBucketLoop 31 latency_us 0

theorem latencyBucketLoop_le (rem : ℕ) :
    ∀ val bucket, latencyBucketLoop rem val bucket ≤ bucket + rem := by
  induction rem with
  | zero => intro val bucket; simp [latencyBucketLoop]
  | succ n ih =>
      intro val bucket
      simp only [latencyBucketLoop]
      split
      · exact le_trans (ih (val / 2) (bucket + 1)) (by omega)
      · omega

theorem latency_bucket_lt (ns : ℕ) : latency_bucket ns < 32 := by
  unfold latency_bucket
  split
  · omega
  · dsimp only
    split
    · omega
    · exact lt_of_le_of_lt (latencyBucketLoop_le 31 _ 0) (by omega)

/-- The histogram index actually incremented by `metrics_observe_latency`. -/
def latencyBucketFin (ns : ℕ) : Fin 32 :=
  ⟨latency_bucket ns, latency_bucket_lt ns⟩

/-- `metrics_observe_latency` (logger.c:370-389): fetch-add count and sum,
CAS-raise the max, fetch-add the histogram bucket chosen by
`latency_bucket`. -/
def metrics_observe_latency (latency_ns : ℕ) (m : MetricsState) : MetricsState :=
  { m with
    latency_count := m.latency_count + 1
    latency_sum_ns := m.latency_sum_ns + latency_ns
    latency_max_ns := max m.latency_max_ns latency_ns
    latency_histogram :=
      Function.update m.latency_histogram (latencyBucketFin latency_ns)
        (m.latency_histogram (latencyBucketFin latency_ns) + 1) }

/-- `metrics_record_protocol` (logger.c:391-407): TCP=6, UDP=17,
ICMP=1 and ICMPv6=58 share one counter, everything else is `proto_other`. -/
def metrics_record_protocol (protocol : ℕ) (m : MetricsState) : MetricsState :=
  if protocol = 6 then { m with proto_tcp := m.proto_tcp + 1 }
  else if protocol = 17 then { m with proto_udp := m.proto_udp + 1 }
  else if protocol = 1 ∨ protocol = 58 then { m with proto_icmp := m.proto_icmp + 1 }
  else { m with proto_other := m.proto_other + 1 }

/-- `metrics_record_ethertype` (logger.c:409-424): IPv4=0x0800, IPv6=0x86DD,
ARP=0x0806, else `ether_other`. -/
def metrics_record_ethertype (ethertype : ℕ) (m : MetricsState) : MetricsState :=
  if ethertype = 0x0800 then { m with ether_ipv4 := m.ether_ipv4 + 1 }
  else if ethertype = 0x86DD then { m with ether_ipv6 := m.ether_ipv6 + 1 }
  else if ethertype = 0x0806 then { m with ether_arp := m.ether_arp + 1 }
  else { m with ether_other := m.ether_other + 1 }

/-- `metrics_inc_captured` (logger.c:426-429). -/
def metrics_inc_captured (bytes : ℕ) (m : MetricsState) : MetricsState :=
  { m with pkts_captured := m.pkts_captured + 1
           bytes_captured := m.bytes_captured + bytes }

/-- `metrics_inc_processed` (logger.c:431-434). -/
def metrics_inc_processed (bytes : ℕ) (m : MetricsState) : MetricsState :=
  { m with pkts_processed := m.pkts_processed + 1
           bytes_processed := m.bytes_processed + bytes }

/-- `metrics_inc_parse_errors` (logger.c:436-438). -/
def metrics_inc_parse_errors (m : MetricsState) : MetricsState :=
  { m with parse_errors := m.parse_errors + 1 }

/-- `metrics_inc_checksum_failures` (logger.c:440-442). -/
def metrics_inc_checksum_failures (m : MetricsState) : MetricsState :=
  { m with checksum_failures := m.checksum_failures + 1 }

/-- `metrics_inc_queue_drops` (logger.c:444-446). -/
def metrics_inc_queue_drops (m : MetricsState) : MetricsState :=
  { m with queue_drops := m.queue_drops + 1 }

/-- `metrics_inc_capture_drops` (logger.c:448-450). -/
def metrics_inc_capture_drops (m : MetricsState) : MetricsState :=
  { m with capture_drops := m.capture_drops + 1 }

/-- `metrics_update_queue_depth_max` (logger.c:452-460): CAS loop raising
the watermark. -/
def metrics_update_queue_depth_max (depth : ℕ) (m : MetricsState) : MetricsState :=
  { m with queue_depth_max := max m.queue_depth_max depth }

/-- Sum of the 32 histogram buckets. -/
def histSum (hist : Fin 32 → ℕ) : ℕ := ∑ i, hist i

/-! ## Percentile extraction (`metrics_percentile_ns`, logger.c:521-545) -/

/-- Midpoint returned for bucket `i`: 500 ns for bucket 0, otherwise
`((2^(i-1) + 2^i) / 2) * 1000` ns (logger.c:534-539). -/
def bucketMidpointNs (i : ℕ) : ℕ :=
  if i = 0 then 500 else ((2 ^ (i - 1) + 2 ^ i) / 2) * 1000

/-- The bucket walk of `metrics_percentile_ns` (logger.c:529-541): accumulate
counts in bucket order; the first bucket whose cumulative count reaches
`target` yields its midpoint; `none` means the loop fell through. -/
def percentileWalk (hist : Fin 32 → ℕ) (target : ℕ) :
    List (Fin 32) → ℕ → Option ℕ
  | [], _ => none
  | i :: rest, cumulative =>
      let c := cumulative + hist i
      if target ≤ c then some (bucketMidpointNs i.val)
      else percentileWalk hist target rest c

/-- `metrics_percentile_ns` (logger.c:521-545).  The C target is
`(uint64_t)(latency_count * percentile)`, i.e. the truncation of the double
product; modelled as `⌊count · percentile⌋` over `ℚ`.  If the walk falls
through, the function returns `latency_max_ns`. -/
def metrics_percentile_ns (hist : Fin 32 → ℕ) (latency_count latency_max_ns : ℕ)
    (percentile : ℚ) : ℕ :=
  if latency_count = 0 then 0
  else
    let target := ⌊(latency_count : ℚ) * percentile⌋₊
    match percentileWalk hist target (List.finRange 32) 0 with
    | some v => v
    | none => latency_max_ns

/-- Modelled from the spec (claim C5's words): the 95th-percentile extraction
returns the midpoint of the first bucket whose cumulative count is at least
`0.95 · latency_count` (a real-number comparison, no truncation), with an
empty histogram yielding 0. -/
def claimPercentileWalk (hist : Fin 32 → ℕ) (target : ℚ) :
    List (Fin 32) → ℕ → Option ℕ
  | [], _ => none
  | i :: rest, cumulative =>
      let c := cumulative + hist i
      if target ≤ (c : ℚ) then some (bucketMidpointNs i.val)
      else claimPercentileWalk hist target rest c

/-- Modelled from the spec (claim C5's words): 95th-percentile extraction with
the exact threshold `0.95 · latency_count`. -/
def claim_p95_ns (hist : Fin 32 → ℕ) (latency_count latency_max_ns : ℕ) : ℕ :=
  if latency_count = 0 then 0
  else
    match claimPercentileWalk hist ((95 / 100 : ℚ) * latency_count)
        (List.finRange 32) 0 with
    | some v => v
    | none => latency_max_ns

/-! ## The metrics operation machine (claim C7) -/

/-- One call into the metrics API (logger.c recording functions). -/
inductive MetricsOp where
  | init
  | start (now_ns : ℕ)
  | stopCapture (now_ns : ℕ)
  | observeLatency (ns : ℕ)
  | recordProtocol (p : ℕ)
  | recordEthertype (e : ℕ)
  | incCaptured (bytes : ℕ)
  | incProcessed (bytes : ℕ)
  | incParseErrors
  | incChecksumFailures
  | incQueueDrops
  | incCaptureDrops
  | updateQueueDepthMax (d : ℕ)
deriving DecidableEq

/-- Effect of one metrics call on the metrics state. -/
def applyMetricsOp (m : MetricsState) : MetricsOp → MetricsState
  | .init => metricsInitState
  | .start t => metrics_start t m
  | .stopCapture t => metrics_stop_capture t m
  | .observeLatency ns => metrics_observe_latency ns m
  | .recordProtocol p => metrics_record_protocol p m
  | .recordEthertype e => metrics_record_ethertype e m
  | .incCaptured b => metrics_inc_captured b m
  | .incProcessed b => metrics_inc_processed b m
  | .incParseErrors => metrics_inc_parse_errors m
  | .incChecksumFailures => metrics_inc_checksum_failures m
  | .incQueueDrops => metrics_inc_queue_drops m
  | .incCaptureDrops => metrics_inc_capture_drops m
  | .updateQueueDepthMax d => metrics_update_queue_depth_max d m

/-- A whole history of metrics calls, starting from the zeroed state
(`metrics_init` is called in `main` before any recording). -/
def runMetricsOps (ops : List MetricsOp) : MetricsState :=
  ops.foldl applyMetricsOp metricsInitState

theorem histSum_update_add_one (hist : Fin 32 → ℕ) (i : Fin 32) :
    histSum (Function.update hist i (hist i + 1)) = histSum hist + 1 := by
  unfold histSum
  rw [Finset.sum_update_of_mem (Finset.mem_univ i), ← Finset.erase_eq,
    ← Finset.sum_erase_add _ _ (Finset.mem_univ i)]
  omega

theorem record_protocol_latency_fields (p : ℕ) (m : MetricsState) :
    (metrics_record_protocol p m).latency_histogram = m.latency_histogram ∧
      (metrics_record_protocol p m).latency_count = m.latency_count := by
  unfold metrics_record_protocol
  split_ifs <;> exact ⟨rfl, rfl⟩

theorem record_ethertype_latency_fields (e : ℕ) (m : MetricsState) :
    (metrics_record_ethertype e m).latency_histogram = m.latency_histogram ∧
      (metrics_record_ethertype e m).latency_count = m.latency_count := by
  unfold metrics_record_ethertype
  split_ifs <;> exact ⟨rfl, rfl⟩

theorem histSum_applyMetricsOp (m : MetricsState) (op : MetricsOp)
    (h : histSum m.latency_histogram = m.latency_count) :
    histSum (applyMetricsOp m op).latency_histogram =
      (applyMetricsOp m op).latency_count := by
  cases op with
  | init =>
      show histSum metricsInitState.latency_histogram =
        metricsInitState.latency_count
      simp [metricsInitState, histSum]
  | start t => exact h
  | stopCapture t => exact h
  | observeLatency ns =>
      have h1 : (applyMetricsOp m (.observeLatency ns)).latency_histogram =
          Function.update m.latency_histogram (latencyBucketFin ns)
            (m.latency_histogram (latencyBucketFin ns) + 1) := rfl
      have h2 : (applyMetricsOp m (.observeLatency ns)).latency_count =
          m.latency_count + 1 := rfl
      rw [h1, h2, histSum_update_add_one, h]
  | recordProtocol p =>
      have e : applyMetricsOp m (.recordProtocol p) =
          metrics_record_protocol p m := rfl
      rw [e, (record_protocol_latency_fields p m).1,
        (record_protocol_latency_fields p m).2]
      exact h
  | recordEthertype e =>
      have he : applyMetricsOp m (.recordEthertype e) =
          metrics_record_ethertype e m := rfl
      rw [he, (record_ethertype_latency_fields e m).1,
        (record_ethertype_latency_fields e m).2]
      exact h
  | incCaptured b => exact h
  | incProcessed b => exact h
  | incParseErrors => exact h
  | incChecksumFailures => exact h
  | incQueueDrops => exact h
  | incCaptureDrops => exact h
  | updateQueueDepthMax d => exact h

/-! ## Packet lifecycle (`packet.c`, src/unnamed/part_003:7-119) -/

/-- Mirror of `packet_t` (include/packet.h:49-65).  A frame is its byte list;
`capture_ts_ns` is declared in the header as the high-resolution capture
timestamp but `packet_create` (part_003:7-38) assigns `timestamp`,
`packet_length`, `raw_data` and the five parsed-header pointers and **never
writes `capture_ts_ns`** — nor does any other function in the repository
(the only other occurrence is the read in thread_pool.c:61).  The field is
therefore modelled as `Option ℕ`, with `none` standing for the uninitialized
malloc memory the C program leaves there. -/
structure Packet where
  timestamp : ℕ
  capture_ts_ns : Option ℕ
  packet_length : ℕ
  raw_data : List ℕ

/-- `packet_create` (part_003:7-38): reject empty input, copy the bytes, set
the wall-clock `timestamp`, null the header pointers.  `capture_ts_ns` is not
assigned. -/
def packet_create (raw_data : List ℕ) (wall_clock : ℕ) : Option Packet :=
  if raw_data.length = 0 then none
  else some
    { timestamp := wall_clock
      capture_ts_ns := none
      packet_length := raw_data.length
      raw_data := raw_data }

/-- The IPv4 header fields `packet_parse` copies and later uses
(`version_ihl` at byte 14, `protocol` at byte 23). -/
structure Ipv4Header where
  version_ihl : ℕ
  protocol : ℕ

/-- Header views produced by `packet_parse`.  The Ethernet view keeps the two
raw ethertype bytes exactly as they sit in the frame (network byte order);
`ntohs` is applied by the consumers. -/
structure ParsedHeaders where
  ethernet : Option (ℕ × ℕ)
  ipv4 : Option Ipv4Header
  tcp : Bool
  udp : Bool

/-- `uint32_t` subtraction (C wraps modulo 2^32); `packet_parse` computes
`packet_length - offset` in this type. -/
def sub32 (a b : ℕ) : ℕ := (a + 2 ^ 32 - b) % 2 ^ 32

/-- `packet_parse` (part_003:53-119).  Requires 14 bytes for Ethernet (else
returns with everything null); on ethertype 0x0800 requires 20 more bytes for
IPv4, then advances by IHL and attempts TCP (proto 6, 20 bytes) or UDP
(proto 17, 8 bytes).  No metrics function is called anywhere in the parse —
in particular `metrics_inc_parse_errors` has no call site in the repository.
Payload extraction is omitted (no observable effect on any claim). -/
def packet_parse (raw : List ℕ) : ParsedHeaders :=
  let len := raw.length
  if len < 14 then ⟨none, none, false, false⟩
  else
    let eth := (raw.getD 12 0, raw.getD 13 0)
    if raw.getD 12 0 * 256 + raw.getD 13 0 = 0x0800 then
      if 20 ≤ sub32 len 14 then
        let version_ihl := raw.getD 14 0
        let protocol := raw.getD 23 0
        let ihl := version_ihl % 16 * 4
        let offset := 14 + ihl
        if protocol = 6 ∧ 20 ≤ sub32 len offset then
          ⟨some eth, some ⟨version_ihl, protocol⟩, true, false⟩
        else if protocol = 17 ∧ 8 ≤ sub32 len offset then
          ⟨some eth, some ⟨version_ihl, protocol⟩, false, true⟩
        else ⟨some eth, some ⟨version_ihl, protocol⟩, false, false⟩
      else ⟨some eth, none, false, false⟩
    else ⟨some eth, none, false, false⟩

/-- `ntohs` on the two stored network-order bytes. -/
def ntohsPair (p : ℕ × ℕ) : ℕ := p.1 * 256 + p.2

/-! ## Worker body (`thread_worker`, src/src/thread_pool.c:33-69) -/

/-- The metric-recording part of `thread_worker` for one dequeued frame
(thread_pool.c:39-66): parse, then — only if `metrics_is_active()` — record
the ethertype when an Ethernet header was parsed, record the L4 protocol
(IPv4 protocol byte, or the IPv6 next-header byte `raw[20]` when the frame
has at least 54 bytes), observe `now_ns - capture_ts_ns` as latency, and
count the frame processed.  Because `capture_ts_ns` is never initialized the
observed latency is an arbitrary value, passed here as `latency_ns`. -/
def worker_recordings (raw : List ℕ) (parsed : ParsedHeaders)
    (m : MetricsState) : MetricsState :=
  match parsed.ethernet with
  | some eth =>
      let ethertype := ntohsPair eth
      let ma := metrics_record_ethertype ethertype m
      if ethertype = 0x0800 then
        match parsed.ipv4 with
        | some ip => metrics_record_protocol ip.protocol ma
        | none => ma
      else if ethertype = 0x86DD ∧ 54 ≤ raw.length then
        metrics_record_protocol (raw.getD 20 0) ma
      else ma
  | none => m

def thread_worker_process (raw : List ℕ) (latency_ns : ℕ) (active : Bool)
    (m : MetricsState) : MetricsState :=
  if active then
    metrics_inc_processed raw.length
      (metrics_observe_latency latency_ns
        (worker_recordings raw (packet_parse raw) m))
  else m

/-! ## Single-run capture/process trace (claim C6)

The capture loop of the metrics-enabled `main` (part_002:645-774) interleaved
with worker processing.  Events: the loop receives a frame
(`socket_receive_packet` + `metrics_inc_captured` gated on `warmup_complete`,
part_002:737-742, then `packet_create` + `thread_pool_enqueue`), the warmup
deadline passes (`metrics_init(); metrics_start()`, part_002:684-693), or a
worker dequeues and processes the head frame (thread_pool.c:24-66). -/

inductive RunEvent where
  | capture (frame : List ℕ)
  | warmupEdge (now_ns : ℕ)
  | process (latency_ns : ℕ)
deriving DecidableEq

/-- Controller-visible state of one run: the `warmup_complete` flag of the
capture loop, the FIFO work queue (frames), and the metrics singleton. -/
structure RunControlState where
  warmup_complete : Bool
  queue : List (List ℕ)
  metrics : MetricsState

/-- `MAX_QUEUE_SIZE` (part_002:176). -/
def MAX_QUEUE_SIZE : ℕ := 100

/-- True exactly for the warmup→measure edge event. -/
def isWarmupEdge : RunEvent → Bool
  | .warmupEdge _ => true
  | _ => false

def stepRun (s : RunControlState) : RunEvent → RunControlState
  | .capture frame =>
      -- packet_size == 0 means no packet: the loop continues (part_002:731-735)
      if frame.length = 0 then s
      -- metrics_inc_captured gated on warmup_complete (part_002:740-742), then
      -- thread_pool_enqueue: drop + inc_queue_drops when full, else append and
      -- raise the depth watermark (thread_pool.c:149-189)
      else if MAX_QUEUE_SIZE ≤ s.queue.length then
        { s with
          metrics := metrics_inc_queue_drops
                       (if s.warmup_complete then
                         metrics_inc_captured frame.length s.metrics
                        else s.metrics) }
      else
        { s with
          metrics := metrics_update_queue_depth_max (s.queue.length + 1)
                       (if s.warmup_complete then
                         metrics_inc_captured frame.length s.metrics
                        else s.metrics)
          queue := s.queue ++ [frame] }
  | .warmupEdge now_ns =>
      -- warmup completion: metrics_init() then metrics_start(); the queue,
      -- and any frames enqueued during warmup, are untouched
      { warmup_complete := true
        queue := s.queue
        metrics := metrics_start now_ns metricsInitState }
  | .process latency_ns =>
      match s.queue with
      | [] => s
      | frame :: rest =>
          { s with
            queue := rest
            metrics := thread_worker_process frame latency_ns
              (metrics_is_active s.metrics) s.metrics }

/-- Run start when `warmup_sec > 0` (part_002:650-678): metrics reset,
`warmup_complete = 0`, metrics not started yet. -/
def runStartWarmup : RunControlState :=
  { warmup_complete := false, queue := [], metrics := metricsInitState }

/-- Run start when `warmup_sec = 0` (part_002:661,674-678): warmup skipped,
`metrics_start()` called immediately. -/
def runStartNoWarmup (now_ns : ℕ) : RunControlState :=
  { warmup_complete := true, queue := []
    metrics := metrics_start now_ns metricsInitState }

def runTrace (s0 : RunControlState) (events : List RunEvent) : RunControlState :=
  events.foldl stepRun s0

/-! ## Per-run results and the regression judge (part_002:353-363, 780-966) -/

/-- `run_metrics_t` (part_002:354-363), the fields the judge reads. -/
structure RunMetrics where
  pps : ℚ
  mbps : ℚ
  p95_ns : ℕ
deriving DecidableEq

/-- `regression_baseline_t` numeric fields (part_003:362-499). -/
structure BaselineRec where
  pkts_processed_per_sec : ℚ
  mbps_processed : ℚ
  latency_p95_ns : ℕ
  drop_rate : ℚ
deriving DecidableEq

/-- Per-run pps flag of `main` (part_002:891-897):
`pps_delta_pct < -regression_threshold` with
`pps_delta_pct = (run_pps - baseline_pps) / baseline_pps`. -/
def run_pps_regressed (baseline_pps θ : ℚ) (r : RunMetrics) : Bool :=
  decide ((r.pps - baseline_pps) / baseline_pps < -θ)

/-- Per-run mbps flag of `main` (part_002:892-898). -/
def run_mbps_regressed (baseline_mbps θ : ℚ) (r : RunMetrics) : Bool :=
  decide ((r.mbps - baseline_mbps) / baseline_mbps < -θ)

/-- `min_regressed_runs` (part_002:910-911):
`(num_runs * 3 + 4) / 5`, clamped below at 1. -/
def min_regressed_runs (num_runs : ℕ) : ℕ :=
  max ((num_runs * 3 + 4) / 5) 1

/-- `pps_persistent` (part_002:913): the pps flag holds in at least
`min_regressed_runs` of the runs. -/
def pps_persistent (baseline_pps θ : ℚ) (runs : List RunMetrics) : Bool :=
  decide (min_regressed_runs runs.length ≤ runs.countP (run_pps_regressed baseline_pps θ))

/-- `mbps_persistent` (part_002:914). -/
def mbps_persistent (baseline_mbps θ : ℚ) (runs : List RunMetrics) : Bool :=
  decide (min_regressed_runs runs.length ≤ runs.countP (run_mbps_regressed baseline_mbps θ))

/-- Overall verdict of the judge in `main`. -/
inductive JudgeOutcome where
  | pass
  | regression
deriving DecidableEq

/-- `any_persistent` and the verdict (part_002:915, 947-957): `main` declares
a regression exactly when the pps flag or the mbps flag is persistent; no
other metric enters the decision. -/
def main_outcome (b : BaselineRec) (θ : ℚ) (runs : List RunMetrics) : JudgeOutcome :=
  if pps_persistent b.pkts_processed_per_sec θ runs
      || mbps_persistent b.mbps_processed θ runs then
    JudgeOutcome.regression
  else JudgeOutcome.pass

/-- `EXIT_REGRESSION` is declared in `regression.h` (not shipped under src/);
its value 2 is fixed by the usage text (part_002:396) and the spec's
exit-code table. -/
def EXIT_REGRESSION : ℕ := 2

/-- Exit code on the valid-sample, baseline-loaded, metadata-compatible path
(part_002:861-955): `EXIT_REGRESSION` iff a persistent regression was found
and `--fail-on-regression` was given, else 0. -/
def main_exit_code (fail_on_regression : Bool) (b : BaselineRec) (θ : ℚ)
    (runs : List RunMetrics) : ℕ :=
  if (pps_persistent b.pkts_processed_per_sec θ runs
      || mbps_persistent b.mbps_processed θ runs) && fail_on_regression then
    EXIT_REGRESSION
  else 0

/-- Result flags of `regression_compare` (part_003:501-575) — the
four-metric, single-snapshot judge.  It is embedded here because the claims
cite it; no call site of `regression_compare` exists in the repository. -/
structure RegressionResult where
  pps_regression : Bool
  mbps_regression : Bool
  latency_regression : Bool
  drop_regression : Bool
  any_regression : Bool

/-- `regression_compare` comparisons (part_003:538-572).  The latency gate
truncates `baseline_p95 * (1 + θ)` to `uint64_t` before comparing
(part_003:553); a flag stays false when its baseline value is 0 (except the
drop gate, which then fires on `current > θ`). -/
def regression_compare (b : BaselineRec) (current_pps current_mbps : ℚ)
    (current_p95 : ℕ) (current_drop_rate : ℚ) (θ : ℚ) : RegressionResult :=
  let ppsR := if 0 < b.pkts_processed_per_sec then
      decide (current_pps < b.pkts_processed_per_sec * (1 - θ)) else false
  let mbpsR := if 0 < b.mbps_processed then
      decide (current_mbps < b.mbps_processed * (1 - θ)) else false
  let latR := if 0 < b.latency_p95_ns then
      decide (⌊(b.latency_p95_ns : ℚ) * (1 + θ)⌋₊ < current_p95) else false
  let dropR := if 0 < b.drop_rate then
      decide (b.drop_rate * (1 + θ) < current_drop_rate)
    else decide (θ < current_drop_rate)
  ⟨ppsR, mbpsR, latR, dropR, ppsR || mbpsR || latR || dropR⟩

/-- Modelled from the spec (§4.I, claim C1/C2's words): per-run pps
regression `run_metric < baseline_metric · (1 − θ)`. -/
def spec_pps_run_regressed (baseline_pps θ : ℚ) (r : RunMetrics) : Bool :=
  decide (r.pps < baseline_pps * (1 - θ))

/-- Modelled from the spec (§4.I): per-run mbps regression. -/
def spec_mbps_run_regressed (baseline_mbps θ : ℚ) (r : RunMetrics) : Bool :=
  decide (r.mbps < baseline_mbps * (1 - θ))

/-- Modelled from the spec (§4.I, claim C1's words): per-run p95-latency
regression `current > baseline · (1 + θ)`. -/
def spec_latency_run_regressed (baseline_p95 : ℕ) (θ : ℚ) (r : RunMetrics) : Bool :=
  decide ((baseline_p95 : ℚ) * (1 + θ) < (r.p95_ns : ℚ))

/-! ## Run-result storage (claim C9, part_002:618-629 and 784-789, 818-822) -/

/-- `run_results` is allocated (calloc) only when `num_runs > 1`
(part_002:620); otherwise the pointer stays NULL. -/
def run_results_allocated (num_runs : ℕ) : Bool := decide (1 < num_runs)

/-- Indices written unconditionally: every run writes
`run_results[run_idx]` (part_002:784-789), and the aggregation loop reads
indices `0 .. num_runs-1` (part_002:818-822). -/
def run_result_write_indices (num_runs : ℕ) : List ℕ := List.range num_runs

/-- A store access is valid only if the store was allocated and the index is
in range. -/
def run_result_write_is_safe (num_runs idx : ℕ) : Bool :=
  run_results_allocated num_runs && decide (idx < num_runs)

/-! ## The three mbps formulas (claim C10) -/

/-- Per-run mbps computed by `main` (part_002:785):
`(bytes_processed * 8.0) / (elapsed * 1000000.0)` — megabits per second. -/
def main_run_mbps (bytes_processed : ℕ) (capture_elapsed_sec : ℚ) : ℚ :=
  bytes_processed * 8 / (capture_elapsed_sec * 1000000)

/-- `rate_mbps` written to the snapshot JSON (logger.c:633,652):
`(bytes_processed / capture_elapsed_sec) / (1024 * 1024)` when the elapsed
time is positive, else 0 — mebibytes per second. -/
def snapshot_rate_mbps (bytes_processed : ℕ) (capture_elapsed_sec : ℚ) : ℚ :=
  if 0 < capture_elapsed_sec then
    bytes_processed / capture_elapsed_sec / (1024 * 1024)
  else 0

/-- The baseline loader's recomputation when the `rate_mbps` key is absent
(part_003:415-421): `bytes_processed / elapsed_sec / (1024 * 1024)`. -/
def baseline_recompute_mbps (bytes_processed : ℕ) (elapsed_sec : ℚ) : ℚ :=
  bytes_processed / elapsed_sec / (1024 * 1024)

/-- The p95 stored into each `RunResult` (part_002:786):
`metrics_percentile_ns(&run_snapshot, 95.0)` — note the argument 95.0 where
the API (metrics.h:327-333) documents a fraction in [0.0, 1.0]. -/
def run_result_p95 (hist : Fin 32 → ℕ) (latency_count latency_max_ns : ℕ) : ℕ :=
  metrics_percentile_ns hist latency_count latency_max_ns 95

/-- Modelled from the spec (claim C4's words): `bucket(ns)` as the spec
states it — 0 when `⌊ns/1000⌋ = 0`, else `min (⌊log2 (ns/1000)⌋ + 1) 31`. -/
def claim_bucket (ns : ℕ) : ℕ :=
  if ns / 1000 = 0 then 0 else min (Nat.log2 (ns / 1000) + 1) 31

/-! ## Helper lemmas -/

theorem minRuns_eq_ceil (n : ℕ) (hn : 1 ≤ n) :
    min_regressed_runs n = ⌈(6 * n : ℚ) / 10⌉₊ := by
  have hq1 : 1 ≤ (n * 3 + 4) / 5 := by
    rw [Nat.one_le_div_iff (by norm_num)]
    omega
  have hmax : min_regressed_runs n = (n * 3 + 4) / 5 := Nat.max_eq_left hq1
  have hd := Nat.div_add_mod (n * 3 + 4) 5
  have hm : (n * 3 + 4) % 5 < 5 := Nat.mod_lt _ (by norm_num)
  rw [hmax]
  symm
  rw [Nat.ceil_eq_iff (by omega)]
  constructor
  · rw [lt_div_iff₀ (by norm_num : (0 : ℚ) < 10)]
    have : ((n * 3 + 4) / 5 - 1) * 10 < 6 * n := by omega
    exact_mod_cast this
  · rw [div_le_iff₀ (by norm_num : (0 : ℚ) < 10)]
    have : 6 * n ≤ (n * 3 + 4) / 5 * 10 := by omega
    exact_mod_cast this

theorem delta_lt_iff (x b θ : ℚ) (hb : 0 < b) :
    (x - b) / b < -θ ↔ x < b * (1 - θ) := by
  rw [div_lt_iff₀ hb]
  constructor <;> intro h <;> nlinarith

theorem run_pps_regressed_eq_spec (bp θ : ℚ) (hb : 0 < bp) (r : RunMetrics) :
    run_pps_regressed bp θ r = spec_pps_run_regressed bp θ r := by
  unfold run_pps_regressed spec_pps_run_regressed
  rw [decide_eq_decide]
  exact delta_lt_iff r.pps bp θ hb

theorem run_mbps_regressed_eq_spec (bm θ : ℚ) (hb : 0 < bm) (r : RunMetrics) :
    run_mbps_regressed bm θ r = spec_mbps_run_regressed bm θ r := by
  unfold run_mbps_regressed spec_mbps_run_regressed
  rw [decide_eq_decide]
  exact delta_lt_iff r.mbps bm θ hb

/-! ## Claim theorems -/

/-- C2 (confirmed): with at least one run, the implementation threshold
`(n*3+4)/5` (clamped below at 1) equals `ceil(0.6·n)`, and a metric is
persistent — declared regressed overall — exactly when its per-run flag
holds in at least `ceil(0.6·n)` of the `n` runs. -/
theorem persistence_threshold_is_ceil_60pct (flags : List Bool)
    (hn : 1 ≤ flags.length) :
    min_regressed_runs flags.length = ⌈(6 * flags.length : ℚ) / 10⌉₊ ∧
      ((min_regressed_runs flags.length ≤ flags.count true) ↔
        ⌈(6 * flags.length : ℚ) / 10⌉₊ ≤ flags.count true) := by
  refine ⟨minRuns_eq_ceil _ hn, ?_⟩
  rw [minRuns_eq_ceil _ hn]

/-- Witness for C2: five runs with three regressed flags meet the threshold
`ceil(0.6·5) = 3`. -/
theorem persistence_threshold_is_ceil_60pct_witness :
    min_regressed_runs ([true, true, true, false, false] : List Bool).length =
        ⌈(6 * ([true, true, true, false, false] : List Bool).length : ℚ) / 10⌉₊ ∧
      ((min_regressed_runs ([true, true, true, false, false] : List Bool).length ≤
          ([true, true, true, false, false] : List Bool).count true) ↔
        ⌈(6 * ([true, true, true, false, false] : List Bool).length : ℚ) / 10⌉₊ ≤
          ([true, true, true, false, false] : List Bool).count true) :=
  persistence_threshold_is_ceil_60pct [true, true, true, false, false] (by decide)

/-- C1 (corrected, counterexample): a baseline of 100 pps / 1 mbps / 1000 ns
p95 with θ = 0.10, and five runs that match the throughput baseline exactly
but show p95 = 10000 ns, give a p95-latency regression in all five runs —
persistent by any threshold — yet `main` declares the outcome Pass and exits
0 even with `--fail-on-regression`: the claim that a persistent p95-latency
regression alone yields Regression is false of the code. -/
theorem latency_regression_alone_passes :
    min_regressed_runs (List.replicate 5 (⟨100, 1, 10000⟩ : RunMetrics)).length ≤
        (List.replicate 5 (⟨100, 1, 10000⟩ : RunMetrics)).countP
          (spec_latency_run_regressed 1000 (1 / 10)) ∧
      (regression_compare ⟨100, 1, 1000, 0⟩ 100 1 10000 0
          (1 / 10)).latency_regression = true ∧
      main_outcome ⟨100, 1, 1000, 0⟩ (1 / 10)
          (List.replicate 5 ⟨100, 1, 10000⟩) = JudgeOutcome.pass ∧
      main_exit_code true ⟨100, 1, 1000, 0⟩ (1 / 10)
          (List.replicate 5 ⟨100, 1, 10000⟩) = 0 := by
  have hlat : spec_latency_run_regressed 1000 (1 / 10) ⟨100, 1, 10000⟩ = true := by
    rw [spec_latency_run_regressed, decide_eq_true_iff]
    norm_num
  have hpps : run_pps_regressed 100 (1 / 10) ⟨100, 1, 10000⟩ = false := by
    rw [run_pps_regressed, decide_eq_false_iff_not]
    norm_num
  have hmbps : run_mbps_regressed 1 (1 / 10) ⟨100, 1, 10000⟩ = false := by
    rw [run_mbps_regressed, decide_eq_false_iff_not]
    norm_num
  have hclat : (List.replicate 5 (⟨100, 1, 10000⟩ : RunMetrics)).countP
      (spec_latency_run_regressed 1000 (1 / 10)) = 5 := by
    simp only [List.replicate_succ, List.replicate_zero, List.countP_cons,
      List.countP_nil, hlat]
    norm_num
  have hcpps : (List.replicate 5 (⟨100, 1, 10000⟩ : RunMetrics)).countP
      (run_pps_regressed 100 (1 / 10)) = 0 := by
    simp only [List.replicate_succ, List.replicate_zero, List.countP_cons,
      List.countP_nil, hpps]
    norm_num
  have hcmbps : (List.replicate 5 (⟨100, 1, 10000⟩ : RunMetrics)).countP
      (run_mbps_regressed 1 (1 / 10)) = 0 := by
    simp only [List.replicate_succ, List.replicate_zero, List.countP_cons,
      List.countP_nil, hmbps]
    norm_num
  have hppsP : pps_persistent 100 (1 / 10)
      (List.replicate 5 ⟨100, 1, 10000⟩) = false := by
    rw [pps_persistent, hcpps, decide_eq_false_iff_not]
    decide
  have hmbpsP : mbps_persistent 1 (1 / 10)
      (List.replicate 5 ⟨100, 1, 10000⟩) = false := by
    rw [mbps_persistent, hcmbps, decide_eq_false_iff_not]
    decide
  refine ⟨?_, ?_, ?_, ?_⟩
  · rw [hclat]; decide
  · rw [regression_compare]
    have h0 : ((0 : ℚ) < (⟨100, 1, 1000, 0⟩ : BaselineRec).latency_p95_ns) := by
      norm_num
    simp only [show ((⟨100, 1, 1000, 0⟩ : BaselineRec).latency_p95_ns) = 1000
      from rfl]
    rw [if_pos (by norm_num : (0 : ℕ) < 1000), decide_eq_true_iff]
    rw [show ⌊((1000 : ℕ) : ℚ) * (1 + 1 / 10)⌋₊ = 1100 by
      rw [show ((1000 : ℕ) : ℚ) * (1 + 1 / 10) = ((1100 : ℕ) : ℚ) by push_cast; ring,
        Nat.floor_natCast]]
    norm_num
  · rw [main_outcome, hppsP, hmbpsP]
    simp
  · rw [main_exit_code, hppsP, hmbpsP]
    simp

/-- C1 (corrected, amended): for a valid baseline (positive pps and mbps
rates) and at least one run, `main` declares Regression — and exits 2 in
regression mode — if and only if the pps regression or the mbps regression
(computed per the spec formula `run < baseline·(1−θ)`) persists in at least
`ceil(0.6·n)` runs.  The p95-latency and drop-rate metrics never enter the
outcome. -/
theorem main_outcome_iff_pps_or_mbps_persistent (b : BaselineRec) (θ : ℚ)
    (runs : List RunMetrics) (hn : 1 ≤ runs.length)
    (hpps : 0 < b.pkts_processed_per_sec) (hmbps : 0 < b.mbps_processed) :
    (main_outcome b θ runs = JudgeOutcome.regression ↔
      (⌈(6 * runs.length : ℚ) / 10⌉₊ ≤
          runs.countP (spec_pps_run_regressed b.pkts_processed_per_sec θ) ∨
        ⌈(6 * runs.length : ℚ) / 10⌉₊ ≤
          runs.countP (spec_mbps_run_regressed b.mbps_processed θ))) ∧
      (main_exit_code true b θ runs = 2 ↔
        main_outcome b θ runs = JudgeOutcome.regression) := by
  have hcp : runs.countP (run_pps_regressed b.pkts_processed_per_sec θ) =
      runs.countP (spec_pps_run_regressed b.pkts_processed_per_sec θ) :=
    List.countP_congr fun r _ => by
      rw [run_pps_regressed_eq_spec _ _ hpps r]
  have hcm : runs.countP (run_mbps_regressed b.mbps_processed θ) =
      runs.countP (spec_mbps_run_regressed b.mbps_processed θ) :=
    List.countP_congr fun r _ => by
      rw [run_mbps_regressed_eq_spec _ _ hmbps r]
  have hp : pps_persistent b.pkts_processed_per_sec θ runs = true ↔
      ⌈(6 * runs.length : ℚ) / 10⌉₊ ≤
        runs.countP (spec_pps_run_regressed b.pkts_processed_per_sec θ) := by
    rw [pps_persistent, decide_eq_true_iff, hcp, minRuns_eq_ceil _ hn]
  have hm : mbps_persistent b.mbps_processed θ runs = true ↔
      ⌈(6 * runs.length : ℚ) / 10⌉₊ ≤
        runs.countP (spec_mbps_run_regressed b.mbps_processed θ) := by
    rw [mbps_persistent, decide_eq_true_iff, hcm, minRuns_eq_ceil _ hn]
  have hout : main_outcome b θ runs = JudgeOutcome.regression ↔
      (pps_persistent b.pkts_processed_per_sec θ runs
        || mbps_persistent b.mbps_processed θ runs) = true := by
    unfold main_outcome
    split
    next h => simp [h]
    next h => simp [h]
  constructor
  · rw [hout, Bool.or_eq_true, hp, hm]
  · rw [hout]
    unfold main_exit_code
    split
    next h =>
      simp only [Bool.and_eq_true] at h
      simp [EXIT_REGRESSION, h.1]
    next h =>
      simp only [Bool.and_true] at h
      constructor
      · intro h0; exact absurd h0 (by norm_num)
      · intro hb2; exact absurd hb2 h

/-- Witness for C1's amended theorem: baseline 100 pps / 1 mbps, five runs
at 50 pps — a persistent pps regression — is declared Regression. -/
theorem main_outcome_iff_witness :
    (main_outcome ⟨100, 1, 1000, 0⟩ (1 / 10) (List.replicate 5 ⟨50, 1, 0⟩) =
        JudgeOutcome.regression ↔
      (⌈(6 * (List.replicate 5 (⟨50, 1, 0⟩ : RunMetrics)).length : ℚ) / 10⌉₊ ≤
          (List.replicate 5 (⟨50, 1, 0⟩ : RunMetrics)).countP
            (spec_pps_run_regressed 100 (1 / 10)) ∨
        ⌈(6 * (List.replicate 5 (⟨50, 1, 0⟩ : RunMetrics)).length : ℚ) / 10⌉₊ ≤
          (List.replicate 5 (⟨50, 1, 0⟩ : RunMetrics)).countP
            (spec_mbps_run_regressed 1 (1 / 10)))) ∧
      (main_exit_code true ⟨100, 1, 1000, 0⟩ (1 / 10)
          (List.replicate 5 ⟨50, 1, 0⟩) = 2 ↔
        main_outcome ⟨100, 1, 1000, 0⟩ (1 / 10) (List.replicate 5 ⟨50, 1, 0⟩) =
          JudgeOutcome.regression) :=
  main_outcome_iff_pps_or_mbps_persistent ⟨100, 1, 1000, 0⟩ (1 / 10)
    (List.replicate 5 ⟨50, 1, 0⟩) (by decide) (by norm_num) (by norm_num)

/-- C3 (code_bug): `packet_create` never stamps the arrival timestamp —
every packet it returns has `capture_ts_ns` unset (the C struct field is
uninitialized malloc memory, and no function in the repository ever writes
it), so the value `now_ns - capture_ts_ns` passed to `observe_latency` by
`thread_worker` is not a capture-to-decode latency. -/
theorem packet_create_never_stamps_arrival (raw_data : List ℕ)
    (wall_clock : ℕ) (pkt : Packet)
    (h : packet_create raw_data wall_clock = some pkt) :
    pkt.capture_ts_ns = none := by
  unfold packet_create at h
  split at h
  · exact absurd h (by simp)
  · cases h
    rfl

/-- Witness for C3: the packet built from a one-byte frame at wall-clock
time 5 has no arrival stamp. -/
theorem packet_create_never_stamps_arrival_witness :
    (Packet.mk 5 none 1 [7]).capture_ts_ns = none :=
  packet_create_never_stamps_arrival [7] 5 (Packet.mk 5 none 1 [7]) rfl

/-- C4 (code_bug): `latency_bucket` maps 999 ns to bucket 0 as the claim
says, but maps 1000 ns (1 µs) to bucket 0 where the claim (and the
function's own doc comment, and the bucket table in metrics.h:43-49, and the
midpoints used by `metrics_percentile_ns`) require bucket 1, and maps
2·10^9 ns (⌊log2 2·10^6⌋ = 20) to bucket 20 where the claim requires a
bucket ≥ 21: the code computes `min ⌊log2 µs⌋ 31`, not
`min (⌊log2 µs⌋ + 1) 31`.  Correspondingly `observe_latency(1000)`
increments bucket 0, not bucket 1. -/
theorem latency_bucket_off_by_one :
    latency_bucket 999 = 0 ∧ latency_bucket 1000 = 0 ∧
      latency_bucket 2000000000 = 20 ∧
      claim_bucket 999 = 0 ∧ claim_bucket 1000 = 1 ∧
      claim_bucket 2000000000 = 21 ∧
      (metrics_observe_latency 1000 metricsInitState).latency_histogram 1 = 0 ∧
      (metrics_observe_latency 1000 metricsInitState).latency_histogram 0 = 1 := by
  have hlog1 : Nat.log2 (1000 / 1000) = 0 := by
    rw [Nat.log2_eq_log_two]
    norm_num
  have hlog2 : Nat.log2 (2000000000 / 1000) = 20 := by
    rw [Nat.log2_eq_log_two]
    exact Nat.log_eq_of_pow_le_of_lt_pow (by norm_num) (by norm_num)
  refine ⟨by decide, by decide, by decide, by decide, ?_, ?_, by decide, by decide⟩
  · rw [claim_bucket, if_neg (by norm_num), hlog1]
    decide
  · rw [claim_bucket, if_neg (by norm_num), hlog2]
    decide

/-- C9 (code_bug): with `runs = 1` the per-run result store is never
allocated (`run_results` stays NULL, part_002:618-629), yet run 0
unconditionally writes `run_results[0]` (part_002:784-789) — a null-pointer
store, so the claim that the store is valid for index 0 fails. -/
theorem run_results_null_when_single_run :
    run_results_allocated 1 = false ∧
      0 ∈ run_result_write_indices 1 ∧
      run_result_write_is_safe 1 0 = false ∧
      run_results_allocated 2 = true := by
  decide

/-- C10 (code_bug): the per-run mbps of `main` is megabits per second
(`bytes·8 / (elapsed·10^6)`) while the snapshot JSON and the baseline
loader's recomputation are mebibytes per second (`bytes/elapsed/2^20`): at
bytes_processed = 2^20 and elapsed = 1 s the run value is 8.388608 and the
snapshot/loader value is 1, so a run that exactly reproduces its baseline's
byte rate does not get a zero delta. -/
theorem run_mbps_disagrees_with_snapshot_mbps :
    main_run_mbps 1048576 1 = 1048576 * 8 / 1000000 ∧
      snapshot_rate_mbps 1048576 1 = 1 ∧
      baseline_recompute_mbps 1048576 1 = 1 ∧
      main_run_mbps 1048576 1 ≠ snapshot_rate_mbps 1048576 1 := by
  refine ⟨?_, ?_, ?_, ?_⟩
  · rw [main_run_mbps]; norm_num
  · rw [snapshot_rate_mbps, if_pos (by norm_num : (0 : ℚ) < 1)]
    norm_num
  · rw [baseline_recompute_mbps]; norm_num
  · rw [snapshot_rate_mbps, if_pos (by norm_num : (0 : ℚ) < 1),
      main_run_mbps]
    norm_num

theorem record_ethertype_preserves (e : ℕ) (m : MetricsState) :
    (metrics_record_ethertype e m).pkts_processed = m.pkts_processed ∧
      (metrics_record_ethertype e m).bytes_processed = m.bytes_processed ∧
      (metrics_record_ethertype e m).pkts_captured = m.pkts_captured ∧
      (metrics_record_ethertype e m).bytes_captured = m.bytes_captured ∧
      (metrics_record_ethertype e m).start_time_ns = m.start_time_ns ∧
      (metrics_record_ethertype e m).parse_errors = m.parse_errors := by
  unfold metrics_record_ethertype
  split_ifs <;> exact ⟨rfl, rfl, rfl, rfl, rfl, rfl⟩

theorem record_protocol_preserves (p : ℕ) (m : MetricsState) :
    (metrics_record_protocol p m).pkts_processed = m.pkts_processed ∧
      (metrics_record_protocol p m).bytes_processed = m.bytes_processed ∧
      (metrics_record_protocol p m).pkts_captured = m.pkts_captured ∧
      (metrics_record_protocol p m).bytes_captured = m.bytes_captured ∧
      (metrics_record_protocol p m).start_time_ns = m.start_time_ns ∧
      (metrics_record_protocol p m).parse_errors = m.parse_errors := by
  unfold metrics_record_protocol
  split_ifs <;> exact ⟨rfl, rfl, rfl, rfl, rfl, rfl⟩

theorem worker_recordings_preserves (raw : List ℕ) (parsed : ParsedHeaders)
    (m : MetricsState) :
    (worker_recordings raw parsed m).pkts_processed = m.pkts_processed ∧
      (worker_recordings raw parsed m).bytes_processed = m.bytes_processed ∧
      (worker_recordings raw parsed m).pkts_captured = m.pkts_captured ∧
      (worker_recordings raw parsed m).bytes_captured = m.bytes_captured ∧
      (worker_recordings raw parsed m).start_time_ns = m.start_time_ns ∧
      (worker_recordings raw parsed m).parse_errors = m.parse_errors := by
  unfold worker_recordings
  cases heth : parsed.ethernet with
  | none => exact ⟨rfl, rfl, rfl, rfl, rfl, rfl⟩
  | some eth =>
      dsimp only
      split_ifs with h1 h2
      · cases hip : parsed.ipv4 with
        | none => exact record_ethertype_preserves _ _
        | some ip =>
            obtain ⟨a1, a2, a3, a4, a5, a6⟩ :=
              record_ethertype_preserves (ntohsPair eth) m
            obtain ⟨b1, b2, b3, b4, b5, b6⟩ :=
              record_protocol_preserves ip.protocol
                (metrics_record_ethertype (ntohsPair eth) m)
            exact ⟨b1.trans a1, b2.trans a2, b3.trans a3, b4.trans a4,
              b5.trans a5, b6.trans a6⟩
      · obtain ⟨a1, a2, a3, a4, a5, a6⟩ :=
          record_ethertype_preserves (ntohsPair eth) m
        obtain ⟨b1, b2, b3, b4, b5, b6⟩ :=
          record_protocol_preserves (raw.getD 20 0)
            (metrics_record_ethertype (ntohsPair eth) m)
        exact ⟨b1.trans a1, b2.trans a2, b3.trans a3, b4.trans a4,
          b5.trans a5, b6.trans a6⟩
      · exact record_ethertype_preserves _ _

theorem thread_worker_counters (raw : List ℕ) (lat : ℕ) (m : MetricsState) :
    (thread_worker_process raw lat true m).pkts_processed = m.pkts_processed + 1 ∧
      (thread_worker_process raw lat true m).bytes_processed =
        m.bytes_processed + raw.length ∧
      (thread_worker_process raw lat true m).pkts_captured = m.pkts_captured ∧
      (thread_worker_process raw lat true m).bytes_captured = m.bytes_captured ∧
      (thread_worker_process raw lat true m).start_time_ns = m.start_time_ns ∧
      (thread_worker_process raw lat true m).parse_errors = m.parse_errors := by
  obtain ⟨a1, a2, a3, a4, a5, a6⟩ :=
    worker_recordings_preserves raw (packet_parse raw) m
  have e1 : (thread_worker_process raw lat true m).pkts_processed =
      (worker_recordings raw (packet_parse raw) m).pkts_processed + 1 := rfl
  have e2 : (thread_worker_process raw lat true m).bytes_processed =
      (worker_recordings raw (packet_parse raw) m).bytes_processed + raw.length := rfl
  have e3 : (thread_worker_process raw lat true m).pkts_captured =
      (worker_recordings raw (packet_parse raw) m).pkts_captured := rfl
  have e4 : (thread_worker_process raw lat true m).bytes_captured =
      (worker_recordings raw (packet_parse raw) m).bytes_captured := rfl
  have e5 : (thread_worker_process raw lat true m).start_time_ns =
      (worker_recordings raw (packet_parse raw) m).start_time_ns := rfl
  have e6 : (thread_worker_process raw lat true m).parse_errors =
      (worker_recordings raw (packet_parse raw) m).parse_errors := rfl
  rw [e1, e2, e3, e4, e5, e6, a1, a2, a3, a4, a5, a6]
  exact ⟨rfl, rfl, rfl, rfl, rfl, rfl⟩

/-- C7 (confirmed): after any sequence of metrics operations applied from the
initial (zeroed) state — init, start, observe_latency with arbitrary values
and all other recording calls, in any order — the sum of the 32 latency
histogram buckets equals `latency_count`. -/
theorem histogram_sum_eq_latency_count (ops : List MetricsOp) :
    histSum (runMetricsOps ops).latency_histogram =
      (runMetricsOps ops).latency_count := by
  rw [runMetricsOps]
  induction ops using List.reverseRecOn with
  | nil => simp [metricsInitState, histSum]
  | append_singleton ops op ih =>
      rw [List.foldl_append, List.foldl_cons, List.foldl_nil]
      exact histSum_applyMetricsOp _ op ih

/-- C6 (corrected, counterexample): a frame captured during warmup is
enqueued but not counted (`metrics_inc_captured` is gated on
`warmup_complete`); after the warmup→measure edge resets and starts the
metrics, a worker dequeues it while `metrics_is_active()` holds and counts it
processed — so the snapshot shows `pkts_processed = 1 > pkts_captured = 0`,
violating the claimed invariant. -/
theorem warmup_straddling_frame_breaks_invariant :
    (runTrace runStartWarmup
        [RunEvent.capture [0], RunEvent.warmupEdge 1,
          RunEvent.process 0]).metrics.pkts_processed = 1 ∧
      (runTrace runStartWarmup
        [RunEvent.capture [0], RunEvent.warmupEdge 1,
          RunEvent.process 0]).metrics.pkts_captured = 0 ∧
      (runTrace runStartWarmup
        [RunEvent.capture [0], RunEvent.warmupEdge 1,
          RunEvent.process 0]).metrics.bytes_processed = 1 ∧
      (runTrace runStartWarmup
        [RunEvent.capture [0], RunEvent.warmupEdge 1,
          RunEvent.process 0]).metrics.bytes_captured = 0 := by
  decide

theorem stepRun_preserves_inv (s : RunControlState) (ev : RunEvent)
    (hev : isWarmupEdge ev = false)
    (h1 : s.warmup_complete = true) (h2 : 0 < s.metrics.start_time_ns)
    (h3 : s.metrics.pkts_processed + s.queue.length ≤ s.metrics.pkts_captured)
    (h4 : s.metrics.bytes_processed + (s.queue.map List.length).sum ≤
      s.metrics.bytes_captured) :
    (stepRun s ev).warmup_complete = true ∧
      0 < (stepRun s ev).metrics.start_time_ns ∧
      (stepRun s ev).metrics.pkts_processed + (stepRun s ev).queue.length ≤
        (stepRun s ev).metrics.pkts_captured ∧
      (stepRun s ev).metrics.bytes_processed +
          ((stepRun s ev).queue.map List.length).sum ≤
        (stepRun s ev).metrics.bytes_captured := by
  cases ev with
  | warmupEdge t => simp [isWarmupEdge] at hev
  | capture frame =>
      by_cases hempty : frame.length = 0
      · have e : stepRun s (.capture frame) = s := by
          simp only [stepRun]
          rw [if_pos hempty]
        rw [e]
        exact ⟨h1, h2, h3, h4⟩
      · by_cases hfull : MAX_QUEUE_SIZE ≤ s.queue.length
        · have e : stepRun s (.capture frame) =
              { s with
                metrics := metrics_inc_queue_drops
                             (metrics_inc_captured frame.length s.metrics) } := by
            simp only [stepRun]
            rw [if_neg hempty, if_pos hfull, if_pos h1]
          rw [e]
          refine ⟨h1, h2, ?_, ?_⟩
          · show s.metrics.pkts_processed + s.queue.length ≤
              s.metrics.pkts_captured + 1
            omega
          · show s.metrics.bytes_processed + (s.queue.map List.length).sum ≤
              s.metrics.bytes_captured + frame.length
            omega
        · have e : stepRun s (.capture frame) =
              { s with
                metrics := metrics_update_queue_depth_max (s.queue.length + 1)
                             (metrics_inc_captured frame.length s.metrics)
                queue := s.queue ++ [frame] } := by
            simp only [stepRun]
            rw [if_neg hempty, if_neg hfull, if_pos h1]
          rw [e]
          refine ⟨h1, h2, ?_, ?_⟩
          · show s.metrics.pkts_processed + (s.queue ++ [frame]).length ≤
              s.metrics.pkts_captured + 1
            simp only [List.length_append, List.length_cons, List.length_nil]
            omega
          · show s.metrics.bytes_processed +
                ((s.queue ++ [frame]).map List.length).sum ≤
              s.metrics.bytes_captured + frame.length
            simp only [List.map_append, List.sum_append, List.map_cons,
              List.sum_cons, List.map_nil, List.sum_nil]
            omega
  | process lat =>
      cases hq : s.queue with
      | nil =>
          have e : stepRun s (.process lat) = s := by
            simp only [stepRun]
            rw [hq]
          rw [e]
          exact ⟨h1, h2, h3, h4⟩
      | cons frame rest =>
          have e : stepRun s (.process lat) =
              { s with
                queue := rest
                metrics := thread_worker_process frame lat
                  (metrics_is_active s.metrics) s.metrics } := by
            simp only [stepRun]
            rw [hq]
          have hact : metrics_is_active s.metrics = true := by
            rw [metrics_is_active, decide_eq_true_iff]
            exact h2
          rw [e, hact]
          obtain ⟨w1, w2, w3, w4, w5, w6⟩ :=
            thread_worker_counters frame lat s.metrics
          rw [hq] at h3 h4
          simp only [List.length_cons, List.map_cons, List.sum_cons] at h3 h4
          refine ⟨h1, ?_, ?_, ?_⟩
          · show 0 < (thread_worker_process frame lat true s.metrics).start_time_ns
            rw [w5]
            exact h2
          · show (thread_worker_process frame lat true s.metrics).pkts_processed +
                rest.length ≤
              (thread_worker_process frame lat true s.metrics).pkts_captured
            rw [w1, w3]
            omega
          · show (thread_worker_process frame lat true s.metrics).bytes_processed +
                (rest.map List.length).sum ≤
              (thread_worker_process frame lat true s.metrics).bytes_captured
            rw [w2, w4]
            omega

/-- C6 (corrected, amended): when every processed frame was enqueued during
the measurement phase — in particular whenever warmup is skipped, so the run
starts with `warmup_complete` set, metrics started and an empty queue, and no
warmup→measure reset occurs — every snapshot satisfies
`pkts_processed ≤ pkts_captured` and `bytes_processed ≤ bytes_captured`.
Only a frame enqueued during warmup and processed after the warmup→measure
`metrics_init()` violates the inequality (see the counterexample above). -/
theorem processed_le_captured_in_measurement (events : List RunEvent)
    (now_ns : ℕ) (hnow : 0 < now_ns)
    (hev : events.all (fun e => !isWarmupEdge e) = true) :
    (runTrace (runStartNoWarmup now_ns) events).metrics.pkts_processed ≤
        (runTrace (runStartNoWarmup now_ns) events).metrics.pkts_captured ∧
      (runTrace (runStartNoWarmup now_ns) events).metrics.bytes_processed ≤
        (runTrace (runStartNoWarmup now_ns) events).metrics.bytes_captured := by
  suffices h : ∀ (s : RunControlState),
      s.warmup_complete = true → 0 < s.metrics.start_time_ns →
      s.metrics.pkts_processed + s.queue.length ≤ s.metrics.pkts_captured →
      s.metrics.bytes_processed + (s.queue.map List.length).sum ≤
        s.metrics.bytes_captured →
      (events.foldl stepRun s).warmup_complete = true ∧
        0 < (events.foldl stepRun s).metrics.start_time_ns ∧
        (events.foldl stepRun s).metrics.pkts_processed +
            (events.foldl stepRun s).queue.length ≤
          (events.foldl stepRun s).metrics.pkts_captured ∧
        (events.foldl stepRun s).metrics.bytes_processed +
            ((events.foldl stepRun s).queue.map List.length).sum ≤
          (events.foldl stepRun s).metrics.bytes_captured by
    obtain ⟨-, -, h3, h4⟩ := h (runStartNoWarmup now_ns) rfl hnow
      (by simp [runStartNoWarmup, metrics_start, metricsInitState])
      (by simp [runStartNoWarmup, metrics_start, metricsInitState])
    unfold runTrace
    exact ⟨by omega, by omega⟩
  induction events with
  | nil => intro s h1 h2 h3 h4; exact ⟨h1, h2, h3, h4⟩
  | cons e rest ih =>
      rw [List.all_cons, Bool.and_eq_true] at hev
      intro s h1 h2 h3 h4
      rw [List.foldl_cons]
      obtain ⟨g1, g2, g3, g4⟩ := stepRun_preserves_inv s e
        (by rw [← Bool.not_eq_true']; exact hev.1) h1 h2 h3 h4
      exact ih hev.2 (stepRun s e) g1 g2 g3 g4

/-- Witness for C6's amended theorem: one captured and processed two-byte
frame in a warmup-free run. -/
theorem processed_le_captured_in_measurement_witness :
    (runTrace (runStartNoWarmup 1)
        [RunEvent.capture [5, 6], RunEvent.process 0]).metrics.pkts_processed ≤
        (runTrace (runStartNoWarmup 1)
          [RunEvent.capture [5, 6], RunEvent.process 0]).metrics.pkts_captured ∧
      (runTrace (runStartNoWarmup 1)
          [RunEvent.capture [5, 6], RunEvent.process 0]).metrics.bytes_processed ≤
        (runTrace (runStartNoWarmup 1)
          [RunEvent.capture [5, 6], RunEvent.process 0]).metrics.bytes_captured :=
  processed_le_captured_in_measurement
    [RunEvent.capture [5, 6], RunEvent.process 0] 1 (by decide) (by decide)

theorem percentileWalk_none (hist : Fin 32 → ℕ) (target : ℕ) :
    ∀ (l : List (Fin 32)) (c : ℕ), c + (l.map hist).sum < target →
      percentileWalk hist target l c = none := by
  intro l
  induction l with
  | nil => intro c h; rfl
  | cons i rest ih =>
      intro c h
      simp only [List.map_cons, List.sum_cons] at h
      simp only [percentileWalk]
      rw [if_neg (by omega)]
      exact ih (c + hist i) (by omega)

theorem claimPercentileWalk_cons_hit (hist : Fin 32 → ℕ) (target : ℚ)
    (i : Fin 32) (rest : List (Fin 32)) (c : ℕ)
    (h : target ≤ ((c + hist i : ℕ) : ℚ)) :
    claimPercentileWalk hist target (i :: rest) c =
      some (bucketMidpointNs i.val) := by
  simp only [claimPercentileWalk]
  exact if_pos h

/-- C5 (code_bug): `main` passes 95.0 to `metrics_percentile_ns`, whose
documented contract (metrics.h:327-333, and every other call site) is a
fraction in [0.0, 1.0].  The resulting target count `95 · latency_count`
exceeds the histogram total whenever any latency was observed, so the bucket
walk always falls through and the p95_ns stored in each RunResult is
`latency_max_ns`, not the claimed histogram percentile extraction: for a
single 700 ns observation (bucket 0, max 700) the stored value is 700 while
the claimed extraction yields bucket 0's midpoint 500. -/
theorem run_result_p95_is_latency_max :
    (∀ (hist : Fin 32 → ℕ) (latency_count latency_max_ns : ℕ),
        histSum hist = latency_count → 1 ≤ latency_count →
        run_result_p95 hist latency_count latency_max_ns = latency_max_ns) ∧
      run_result_p95 (Function.update (fun _ => 0) 0 1) 1 700 = 700 ∧
      claim_p95_ns (Function.update (fun _ => 0) 0 1) 1 700 = 500 := by
  have hgen : ∀ (hist : Fin 32 → ℕ) (c maxNs : ℕ), histSum hist = c →
      1 ≤ c → run_result_p95 hist c maxNs = maxNs := by
    intro hist c maxNs hsum hc
    rw [run_result_p95, metrics_percentile_ns, if_neg (by omega)]
    dsimp only
    have htarget : ⌊(c : ℚ) * 95⌋₊ = 95 * c := by
      rw [show ((c : ℚ) * 95) = ((95 * c : ℕ) : ℚ) by push_cast; ring,
        Nat.floor_natCast]
    have hbound : 0 + ((List.finRange 32).map hist).sum < 95 * c := by
      have hs : ((List.finRange 32).map hist).sum = histSum hist :=
        (Fin.sum_univ_def hist).symm
      rw [hs, hsum]
      omega
    rw [htarget, percentileWalk_none hist (95 * c) (List.finRange 32) 0 hbound]
  have hsum1 : histSum (Function.update (fun _ => 0) (0 : Fin 32) 1) = 1 := by
    have h := histSum_update_add_one (fun _ => 0) 0
    simpa [histSum] using h
  refine ⟨hgen, hgen _ 1 700 hsum1 le_rfl, ?_⟩
  rw [claim_p95_ns, if_neg one_ne_zero]
  rw [show List.finRange 32 = (0 : Fin 32) :: (List.finRange 32).tail from
    by decide]
  rw [claimPercentileWalk_cons_hit _ _ _ _ _ ?hit]
  case hit =>
    rw [Function.update_same]
    push_cast
    norm_num
  rfl

/-- Witness for C5's theorem: the single-observation snapshot satisfies its
hypotheses and the stored p95 equals the max. -/
theorem run_result_p95_is_latency_max_witness :
    run_result_p95 (Function.update (fun _ => 0) 0 1) 1 700 = 700 :=
  run_result_p95_is_latency_max.1 (Function.update (fun _ => 0) 0 1) 1 700
    (by simpa [histSum] using histSum_update_add_one (fun _ => 0) 0)
    (by norm_num)

/-- C8 (corrected, counterexample): a 13-byte frame (shorter than the
Ethernet header) is processed without incrementing `parse_errors` — the
counter has no call site — and a 14-byte frame advertising IPv4 (truncated
below the IPv4 header) still records its ethertype in `ether_ipv4`, so
neither half of the claim holds. -/
theorem short_frame_not_counted_as_parse_error :
    (thread_worker_process (List.replicate 13 0) 0 true
        metricsInitState).parse_errors = 0 ∧
      (thread_worker_process (List.replicate 13 0) 0 true
        metricsInitState).ether_ipv4 = 0 ∧
      (thread_worker_process (List.replicate 12 0 ++ [8, 0]) 0 true
        metricsInitState).parse_errors = 0 ∧
      (thread_worker_process (List.replicate 12 0 ++ [8, 0]) 0 true
        metricsInitState).ether_ipv4 = 1 := by
  decide

/-- C8 (corrected, amended): processing any frame never increments
`parse_errors` (the counter has no call site in the repository), and a frame
shorter than the 14-byte Ethernet header records neither an ethertype nor an
L4 protocol; frames with a parsed Ethernet header but truncated IPv4/TCP/UDP
still record their ethertype (and, when the IPv4 header fit, the protocol). -/
theorem worker_never_increments_parse_errors (raw : List ℕ) (lat : ℕ)
    (active : Bool) (m : MetricsState) :
    (thread_worker_process raw lat active m).parse_errors = m.parse_errors ∧
      (raw.length < 14 →
        (thread_worker_process raw lat active m).ether_ipv4 = m.ether_ipv4 ∧
        (thread_worker_process raw lat active m).ether_ipv6 = m.ether_ipv6 ∧
        (thread_worker_process raw lat active m).ether_arp = m.ether_arp ∧
        (thread_worker_process raw lat active m).ether_other = m.ether_other ∧
        (thread_worker_process raw lat active m).proto_tcp = m.proto_tcp ∧
        (thread_worker_process raw lat active m).proto_udp = m.proto_udp ∧
        (thread_worker_process raw lat active m).proto_icmp = m.proto_icmp ∧
        (thread_worker_process raw lat active m).proto_other = m.proto_other) := by
  cases active with
  | false => exact ⟨rfl, fun _ => ⟨rfl, rfl, rfl, rfl, rfl, rfl, rfl, rfl⟩⟩
  | true =>
      constructor
      · have e : (thread_worker_process raw lat true m).parse_errors =
            (worker_recordings raw (packet_parse raw) m).parse_errors := rfl
        rw [e,
          (worker_recordings_preserves raw (packet_parse raw) m).2.2.2.2.2]
      · intro hlen
        have hp : packet_parse raw = ⟨none, none, false, false⟩ := by
          rw [packet_parse]
          dsimp only
          rw [if_pos hlen]
        have e : thread_worker_process raw lat true m =
            metrics_inc_processed raw.length (metrics_observe_latency lat
              (worker_recordings raw (packet_parse raw) m)) := rfl
        rw [e, hp]
        exact ⟨rfl, rfl, rfl, rfl, rfl, rfl, rfl, rfl⟩

/-- Witness for C8's amended theorem: an 11-byte frame leaves `parse_errors`
and the ethertype counters untouched. -/
theorem worker_never_increments_parse_errors_witness :
    (thread_worker_process (List.replicate 11 0) 3 true
        metricsInitState).parse_errors = metricsInitState.parse_errors ∧
      (thread_worker_process (List.replicate 11 0) 3 true
        metricsInitState).ether_ipv4 = metricsInitState.ether_ipv4 :=
  ⟨(worker_never_increments_parse_errors (List.replicate 11 0) 3 true
      metricsInitState).1,
    ((worker_never_increments_parse_errors (List.replicate 11 0) 3 true
      metricsInitState).2 (by decide)).1⟩

end PacketAnalyzer
